import Mathlib

/-!
Shallow embedding of the `codekaizen-github/cloudflare-ansible-collection`
Ansible modules:

* `plugins/modules/cfd_tunnel.py` — manages Cloudflare Tunnels
  (states `present` / `absent` / `fetched`), with a paginated lookup
  (`fetch_tunnel`), creation (`create_tunnel`), update (`update_tunnel`)
  and deletion (`delete_tunnel`).
* `plugins/modules/cloudflare_zone_settings_ssl.py` — fetches or sets a
  zone SSL mode (states `fetched` / `present`).

Modelling conventions:
* JSON payloads are modelled by structures carrying exactly the fields the
  code reads; an `Option` field with value `none` models an absent key
  (the Python code accesses them through `dict.get`).
* Each embedded function takes the HTTP response bodies it would receive
  as explicit arguments; every listed response is an HTTP 200 success
  (transport-error branches, which merely relay the error message through
  `fail_json`, are outside the properties considered here).
* The trace component (`List Call` / `List SSLCall`) records the mutating
  HTTP requests (POST / PATCH / DELETE) the function issues, with the
  request bodies the code builds.  Read-only GETs are not traced.
* `module.exit_json` / `module.fail_json` terminate the Python process;
  they are modelled by the `Outcome` sum.  An uncaught Python exception
  (TypeError / IndexError) is the `pyError` outcome.
-/

namespace CloudflareCollection

/-- Python truthiness of an optional string value: `None` and the empty
string are falsy, every other string is truthy. -/
def pyTruthy : Option String → Bool
  | none => false
  | some s => s != ""

/-- Unhandled Python exceptions that the embedded code can raise. -/
inductive PyError where
  | typeError
  | indexError
deriving Repr, DecidableEq

/-! ## cfd_tunnel.py : data model -/

/-- The fields of a tunnel JSON payload that `cfd_tunnel.py` reads:
`tunnel["name"]`, `tunnel.get("deleted_at")`,
`current_tunnel.get("config_src", "local")`, `existing_tunnel["id"]`.
`none` models an absent key. -/
structure Tunnel where
  id : String
  name : String
  config_src : Option String
  deleted_at : Option String
deriving Repr, DecidableEq

/-- The `result_info` object of a list response:
`pagination.get("page")` and `pagination.get("total_pages", 1)`. -/
structure ResultInfo where
  page : Option Int
  total_pages : Option Int
deriving Repr, DecidableEq

/-- One page of `GET /accounts/{account_id}/tunnels`:
`response.json().get("result", [])` and
`response.json().get("result_info", {})`. -/
structure PageResponse where
  result : List Tunnel
  result_info : Option ResultInfo
deriving Repr, DecidableEq

/-- `pagination.get("page")` where `pagination` is
`response.json().get("result_info", {})`: an absent `result_info`
behaves as the empty dict, whose `.get("page")` is `None`. -/
def pageVal (r : PageResponse) : Option Int :=
  match r.result_info with
  | none => none
  | some ri => ri.page

/-- `pagination.get("total_pages", 1)`: defaults to `1` when the key (or
the whole `result_info` object) is absent. -/
def totalPagesVal (r : PageResponse) : Int :=
  match r.result_info with
  | none => 1
  | some ri => ri.total_pages.getD 1

/-- The match predicate of the lookup loop:
`tunnel["name"] == name and not tunnel.get("deleted_at")`. -/
def tunnelMatches (name : String) (t : Tunnel) : Bool :=
  t.name == name && !pyTruthy t.deleted_at

/-- Result of `fetch_tunnel`.  `tyErr` is the uncaught `TypeError` raised
by `None >= int` in the pagination check (Python 3 forbids ordering
`None` against an integer, and the surrounding `except` clause only
catches `requests.exceptions.RequestException`).  `noResponse` is a model
artifact: the loop requested one more page than the supplied response
list covers. -/
inductive FetchResult where
  | found (t : Tunnel)
  | notFound
  | tyErr
  | noResponse
deriving Repr, DecidableEq

/-- `fetch_tunnel` (cfd_tunnel.py, lines 102–130).  The `k`-th element of
`pages` is the body of the response to the `k`-th GET request of the
loop (which asks for `page = k + 1`, since `params["page"]` starts at 1
and is incremented once per iteration).  Per iteration: scan the page for
the first live tunnel with the requested name; otherwise break out of the
loop (returning `None`) when `page >= total_pages`, else request the next
page. -/
def fetch_tunnel (name : String) : List PageResponse → FetchResult
  | [] => .noResponse
  | r :: rest =>
    match r.result.find? (tunnelMatches name) with
    | some t => .found t
    | none =>
      match pageVal r with
      | none => .tyErr
      | some p => if totalPagesVal r ≤ p then .notFound else fetch_tunnel name rest

/-! ## cfd_tunnel.py : outcomes and mutating-call traces -/

/-- Terminal outcome of a module invocation: `exit_json` (with its
`changed` flag, optional `tunnel` payload and optional `msg`),
`fail_json`, an uncaught Python exception, or the model artifact of an
exhausted response list. -/
inductive Outcome where
  | exit (changed : Bool) (tunnel : Option Tunnel) (msg : Option String)
  | fail (msg : String)
  | pyError (e : PyError)
  | modelGap
deriving Repr, DecidableEq

/-- The `changed` flag actually reported: `exit_json(changed=...)`
reports it; `fail_json` and an uncaught exception report none (taken as
`false`). -/
def reportsChanged : Outcome → Bool
  | .exit c _ _ => c
  | _ => false

/-- Mutating HTTP requests of cfd_tunnel.py, with their JSON bodies. -/
inductive Call where
  | postTunnel (name : String) (config_src : String) (tunnel_secret : Option String)
  | patchTunnel (tunnel_id : String) (config_src : String) (tunnel_secret : Option String)
  | deleteReq (tunnel_id : String)
deriving Repr, DecidableEq

/-- `create_tunnel` (lines 133–167).  In check mode, exit with
`changed=True` and no request.  Otherwise POST
`{"name": name, "config_src": config_src, "tunnel_secret": tunnel_secret}`
(the secret key is always present, possibly null) and exit with
`changed=True` and the response's `result`. -/
def create_tunnel (check_mode : Bool) (name config_src : String)
    (tunnel_secret : Option String) (postResp : Tunnel) : Outcome × List Call :=
  if check_mode then
    (.exit true none (some "Would have created tunnel (check mode)"), [])
  else
    (.exit true (some postResp) none, [.postTunnel name config_src tunnel_secret])

/-- The body of the PATCH request of `update_tunnel` (lines 194–197):
`data = {"config_src": config_src}`, and `data["tunnel_secret"] =
tunnel_secret` only when the secret is truthy. -/
def patchSecretField (tunnel_secret : Option String) : Option String :=
  if pyTruthy tunnel_secret then tunnel_secret else none

/-- `update_tunnel` (lines 170–208).  `current` is the body `result` of
the GET on the tunnel id; `patchResp` the body `result` of the PATCH
response.  If the current `config_src` (defaulting to `"local"` when
absent) equals the desired one and the current payload carries no
(truthy) `deleted_at`, exit with `changed=False` and the current payload;
otherwise, in check mode exit with `changed=True` and no request, else
PATCH and exit with `changed=True` and the PATCH response. -/
def update_tunnel (check_mode : Bool) (tunnel_id config_src : String)
    (tunnel_secret : Option String) (current patchResp : Tunnel) :
    Outcome × List Call :=
  if current.config_src.getD "local" == config_src && !pyTruthy current.deleted_at then
    (.exit false (some current) none, [])
  else if check_mode then
    (.exit true none (some "Would have updated tunnel (check mode)"), [])
  else
    (.exit true (some patchResp) none,
      [.patchTunnel tunnel_id config_src (patchSecretField tunnel_secret)])

/-- Response to the DELETE request in `delete_tunnel`: success, a 404
(`HTTPError` with `status_code == 404`), or another HTTP error. -/
inductive DeleteResp where
  | ok
  | notFound404
  | httpError (code : Int) (text : String)
deriving Repr, DecidableEq

/-- `delete_tunnel` (lines 211–260).  Look the tunnel up first; if
absent, exit `changed=False` with no request.  In check mode, exit
`changed=True` with no request.  Otherwise DELETE; a 404 response is
treated as success (`changed=False`, "Tunnel does not exist"), any other
HTTP error fails the module. -/
def delete_tunnel (check_mode : Bool) (name : String) (pages : List PageResponse)
    (deleteResp : DeleteResp) : Outcome × List Call :=
  match fetch_tunnel name pages with
  | .noResponse => (.modelGap, [])
  | .tyErr => (.pyError .typeError, [])
  | .notFound => (.exit false none (some "Tunnel does not exist"), [])
  | .found t =>
    if check_mode then
      (.exit true none (some "Would have deleted tunnel (check mode)"), [])
    else
      match deleteResp with
      | .ok => (.exit true none (some "Tunnel deleted"), [.deleteReq t.id])
      | .notFound404 => (.exit false none (some "Tunnel does not exist"), [.deleteReq t.id])
      | .httpError code text =>
        (.fail ("HTTP Error: " ++ toString code ++ " - " ++ text), [.deleteReq t.id])

/-- The `state == "fetched"` branch of `main` (lines 293–300): exit with
`changed=False` and the tunnel when found, fail the task when not. -/
def state_fetched (name : String) (pages : List PageResponse) : Outcome :=
  match fetch_tunnel name pages with
  | .found t => .exit false (some t) none
  | .notFound => .fail ("Tunnel with name " ++ name ++ " not found.")
  | .tyErr => .pyError .typeError
  | .noResponse => .modelGap

/-- The `state == "present"` branch of `main` (lines 301–324): look up by
name, then update when found (passing the found tunnel's id) and create
when not.  `postResp`, `current` and `patchResp` are the response bodies
the inner calls would receive. -/
def state_present (check_mode : Bool) (name config_src : String)
    (tunnel_secret : Option String) (pages : List PageResponse)
    (postResp current patchResp : Tunnel) : Outcome × List Call :=
  match fetch_tunnel name pages with
  | .found t => update_tunnel check_mode t.id config_src tunnel_secret current patchResp
  | .notFound => create_tunnel check_mode name config_src tunnel_secret postResp
  | .tyErr => (.pyError .typeError, [])
  | .noResponse => (.modelGap, [])

/-! ## cloudflare_zone_settings_ssl.py -/

/-- An element of the `result` list of `GET /zones?name=...`; the code
reads `result["result"][0]["id"]`. -/
structure Zone where
  id : String
  name : String
deriving Repr, DecidableEq

/-- The `result` object of the `/zones/{zone_id}/settings/ssl` endpoint
(the setting payload returned to the caller as `ssl_settings`). -/
structure SSLSetting where
  id : String
  value : String
deriving Repr, DecidableEq

/-- The one mutating HTTP request of cloudflare_zone_settings_ssl.py:
`PATCH /zones/{zone_id}/settings/ssl` with body `{"value": value}`. -/
inductive SSLCall where
  | patchSSL (zone_id : String) (value : String)
deriving Repr, DecidableEq

/-- Terminal outcome of a cloudflare_zone_settings_ssl.py invocation. -/
inductive SSLOutcome where
  | exit (changed : Bool) (ssl_settings : SSLSetting) (message : String)
  | fail (msg : String)
  | pyError (e : PyError)
deriving Repr, DecidableEq

/-- The `changed` flag reported by an SSL-module outcome. -/
def sslReportsChanged : SSLOutcome → Bool
  | .exit c _ _ => c
  | _ => false

/-- `fetch_ssl_settings` (cloudflare_zone_settings_ssl.py, lines 9–35).
`zonesResult` is the `result` list of the zone lookup, `sslResp` the
`result` of the settings GET.  The code indexes `result["result"][0]`
without an emptiness check: an empty zone list raises an uncaught
`IndexError` (the `fail_json` branches only fire on non-200 statuses,
and both responses here are 200s). -/
def fetch_ssl_settings (zonesResult : List Zone) (sslResp : SSLSetting) :
    Except PyError SSLSetting :=
  match zonesResult with
  | [] => .error .indexError
  | _ :: _ => .ok sslResp

/-- `set_ssl_settings` (lines 38–71).  Same zone lookup and `[0]`
indexing, then a PATCH with body `{"value": value}` whose response
`result` is `patchResp`.  Note: the function never consults
`module.check_mode`, so the PATCH is issued unconditionally. -/
def set_ssl_settings (zonesResult : List Zone) (patchResp : SSLSetting)
    (value : String) : Except PyError SSLSetting × List SSLCall :=
  match zonesResult with
  | [] => (.error .indexError, [])
  | z :: _ => (.ok patchResp, [.patchSSL z.id value])

/-- The module's `state` parameter (`choices=["fetched", "present"]`). -/
inductive SSLState where
  | fetched
  | present
deriving Repr, DecidableEq

/-- `main` of cloudflare_zone_settings_ssl.py (lines 74–115).  The module
declares `supports_check_mode=True` but `check_mode` is never read, so
the outcome and the issued requests do not depend on it.  For
`state=present`, a falsy `value` (absent or empty) fails validation
before any request; otherwise `set_ssl_settings` runs and the module
always exits with `changed=True`. -/
def ssl_main (_check_mode : Bool) (state : SSLState) (value : Option String)
    (zonesResult : List Zone) (sslResp patchResp : SSLSetting) :
    SSLOutcome × List SSLCall :=
  match state with
  | .fetched =>
    match fetch_ssl_settings zonesResult sslResp with
    | .error e => (.pyError e, [])
    | .ok r => (.exit false r "SSL settings fetched successfully.", [])
  | .present =>
    if !pyTruthy value then
      (.fail "Value parameter is required when state is present", [])
    else
      match set_ssl_settings zonesResult patchResp (value.getD "") with
      | (.error e, calls) => (.pyError e, calls)
      | (.ok r, calls) => (.exit true r "SSL settings updated successfully.", calls)

/-! ## Remote-store models

The modules talk to the Cloudflare REST API, which is outside this
repository.  To state properties about two invocations in sequence
("against the same remote store"), the remote service is modelled by the
evident REST semantics: a store of live resources, list/get responses
derived from the store, and each traced mutating request applied to the
store in order. -/

/-- The id the modelled server assigns to a tunnel created by POST. -/
def freshId (store : List Tunnel) : String :=
  "tunnel-" ++ toString store.length

/-- The tunnel the modelled server creates for
`POST {"name": name, "config_src": cs, ...}`. -/
def mkFresh (store : List Tunnel) (name cs : String) : Tunnel :=
  { id := freshId store, name := name, config_src := some cs, deleted_at := none }

/-- Server semantics of one mutating request against a tunnel store. -/
def applyCall (store : List Tunnel) : Call → List Tunnel
  | .postTunnel name cs _ => store ++ [mkFresh store name cs]
  | .patchTunnel tid cs _ =>
    store.map (fun u => if u.id == tid then { u with config_src := some cs } else u)
  | .deleteReq tid => store.filter (fun u => !(u.id == tid))

/-- Apply a trace of mutating requests to the store, in order. -/
def applyCalls (store : List Tunnel) (calls : List Call) : List Tunnel :=
  calls.foldl applyCall store

/-- The single-page listing the modelled server returns for
`GET /tunnels` (stores of at most one page: `page = total_pages = 1`). -/
def storePages (store : List Tunnel) : List PageResponse :=
  [{ result := store, result_info := some { page := some 1, total_pages := some 1 } }]

/-- The `state=present` branch of cfd_tunnel.py run against the modelled
server: the listing, the GET-by-id response, and the POST / PATCH
responses are all derived from the store, and the traced requests are
applied to it.  Returns (outcome, issued mutating requests, new store). -/
def present_on_store (check_mode : Bool) (name cs : String)
    (tunnel_secret : Option String) (store : List Tunnel) :
    Outcome × List Call × List Tunnel :=
  match fetch_tunnel name (storePages store) with
  | .found t =>
    match store.find? (fun u => u.id == t.id) with
    | some cur =>
      let r := update_tunnel check_mode t.id cs tunnel_secret cur
        { cur with config_src := some cs }
      (r.1, r.2, applyCalls store r.2)
    | none => (.modelGap, [], store)
  | .notFound =>
    let r := create_tunnel check_mode name cs tunnel_secret (mkFresh store name cs)
    (r.1, r.2, applyCalls store r.2)
  | .tyErr => (.pyError .typeError, [], store)
  | .noResponse => (.modelGap, [], store)

/-- Remote store of the SSL module's zone: the zone list and the current
value of the zone SSL setting. -/
structure SSLStore where
  zones : List Zone
  ssl : SSLSetting
deriving Repr, DecidableEq

/-- Server semantics of the SSL PATCH against the store. -/
def applySSLCall (st : SSLStore) : SSLCall → SSLStore
  | .patchSSL _ v => { st with ssl := { st.ssl with value := v } }

/-- cloudflare_zone_settings_ssl.py `main` run against the modelled
server: the zone lookup filters the store's zones by name, the settings
GET returns the stored setting, the PATCH response echoes the updated
setting, and traced requests are applied to the store. -/
def ssl_main_on_store (check_mode : Bool) (state : SSLState) (zone : String)
    (value : Option String) (st : SSLStore) :
    SSLOutcome × List SSLCall × SSLStore :=
  let zonesResult := st.zones.filter (fun z => z.name == zone)
  let patchResp : SSLSetting := { st.ssl with value := value.getD "" }
  let r := ssl_main check_mode state value zonesResult st.ssl patchResp
  (r.1, r.2, r.2.foldl applySSLCall st)

/-! ## Modelled from the spec: the list-returning fetched variant

The spec's `state=fetched` contract distinguishes the single-resource
variant (cfd_tunnel, required to fail when no match exists) from a
list-returning variant (the repository-variables module, which is not
under `plugins/`): the latter "returns the full filtered list" and
"returns an empty list as success". -/

/-- A repository variable, the list-returning resource of the spec. -/
structure RepoVariable where
  name : String
  value : String
deriving Repr, DecidableEq

/-- Outcome of the modelled list-returning module. -/
inductive VarsOutcome where
  | exit (changed : Bool) (vars : List RepoVariable)
  | fail (msg : String)
deriving Repr, DecidableEq

/-- Modelled from the spec: the `state=fetched` branch of the
list-returning repository-variables module, whose implementation is not
in this repository.  Per the spec it returns the full filtered list with
`changed=false`, an empty list being a success rather than a failure. -/
def variables_fetched (store : List RepoVariable) (nameFilter : Option String) :
    VarsOutcome :=
  .exit false
    (match nameFilter with
     | none => store
     | some n => store.filter (fun v => v.name == n))

/-! ## Specification-side helpers for the pagination claim -/

/-- A response list is well formed from page `k` with page count `total`:
each successive response reports the successive page number and the same
total page count (`totalPagesVal` already applies the default of 1 for a
missing `total_pages`). -/
def wfFrom (k total : Int) : List PageResponse → Bool
  | [] => true
  | r :: rest => (pageVal r == some k && totalPagesVal r == total) && wfFrom (k + 1) total rest

/-- Repackage an `Option Tunnel` as a lookup result. -/
def resultOfFind : Option Tunnel → FetchResult
  | some t => .found t
  | none => .notFound

/-- The concatenation of the `result` slices of all pages, in page
order. -/
def pagesResults (pages : List PageResponse) : List Tunnel :=
  pages.foldr (fun r acc => r.result ++ acc) []

/-! ## Claim theorems -/

/-- C6: for `state=absent`, when the lookup finds no matching tunnel the
module exits with `changed=False` and issues no mutating request at all
(in particular no DELETE), leaving the remote state untouched. -/
theorem claim6_absent_on_absent_noop (check_mode : Bool) (name : String)
    (pages : List PageResponse) (resp : DeleteResp)
    (h : fetch_tunnel name pages = .notFound) :
    delete_tunnel check_mode name pages resp
      = (.exit false none (some "Tunnel does not exist"), []) := by
  unfold delete_tunnel
  rw [h]

theorem claim6_witness :
    delete_tunnel true "my-tunnel" [{ result := [], result_info := some { page := some 1, total_pages := some 1 } }] .ok
      = (.exit false none (some "Tunnel does not exist"), []) :=
  claim6_absent_on_absent_noop true "my-tunnel" _ .ok rfl

/-- C7: for `state=absent`, when the lookup found the tunnel but the
DELETE itself comes back 404 (a concurrent deletion), the module exits
successfully with `changed=False` ("Tunnel does not exist") instead of
failing. -/
theorem claim7_delete_404_is_success (name : String) (pages : List PageResponse)
    (t : Tunnel) (h : fetch_tunnel name pages = .found t) :
    delete_tunnel false name pages .notFound404
      = (.exit false none (some "Tunnel does not exist"), [.deleteReq t.id]) := by
  unfold delete_tunnel
  rw [h]
  rfl

theorem claim7_witness :
    delete_tunnel false "my-tunnel"
        [{ result := [⟨"tid-1", "my-tunnel", none, none⟩],
           result_info := some { page := some 1, total_pages := some 1 } }] .notFound404
      = (.exit false none (some "Tunnel does not exist"), [.deleteReq "tid-1"]) :=
  claim7_delete_404_is_success "my-tunnel" _ ⟨"tid-1", "my-tunnel", none, none⟩ rfl

/-- C10: `fetch_tunnel` is total only when every page response carries a
`result_info` with a `"page"` value: if the loop reaches the pagination
check (no match on the page) and `result_info` is absent or lacks
`"page"`, the comparison `None >= int` raises an uncaught TypeError
(`requests.exceptions.RequestException` does not cover it). -/
theorem claim10_missing_page_raises_type_error (name : String) (r : PageResponse)
    (rest : List PageResponse) (h1 : r.result.find? (tunnelMatches name) = none)
    (h2 : pageVal r = none) :
    fetch_tunnel name (r :: rest) = .tyErr := by
  unfold fetch_tunnel
  rw [h1, h2]

theorem claim10_witness :
    fetch_tunnel "my-tunnel" [{ result := [], result_info := none }] = .tyErr :=
  claim10_missing_page_raises_type_error "my-tunnel" _ [] rfl rfl

/-- C2 (failing input): the SSL module declares
`supports_check_mode=True` yet `set_ssl_settings` never consults check
mode: with check mode enabled, `state=present` on an existing zone still
issues the mutating PATCH (and reports `changed=True`), violating the
dry-run invariant. -/
theorem claim2_ssl_check_mode_still_patches :
    (ssl_main_on_store true .present "example.com" (some "full")
        ⟨[⟨"z1", "example.com"⟩], ⟨"ssl", "flexible"⟩⟩).2.1
      = [.patchSSL "z1" "full"]
    ∧ sslReportsChanged (ssl_main_on_store true .present "example.com" (some "full")
        ⟨[⟨"z1", "example.com"⟩], ⟨"ssl", "flexible"⟩⟩).1 = true :=
  ⟨rfl, rfl⟩

/-- C1 (counterexample): in the SSL module, `state=present` with a
desired value equal to the current stored value still issues the PATCH
and reports `changed=True` — the module never compares the desired value
against the current payload, contradicting the claim that an equal
desired state reports `changed=false` with no update call. -/
theorem claim1_counterexample_ssl_always_updates :
    sslReportsChanged (ssl_main_on_store false .present "example.com" (some "full")
        ⟨[⟨"z1", "example.com"⟩], ⟨"ssl", "full"⟩⟩).1 = true
    ∧ (ssl_main_on_store false .present "example.com" (some "full")
        ⟨[⟨"z1", "example.com"⟩], ⟨"ssl", "full"⟩⟩).2.1
      = [.patchSSL "z1" "full"] :=
  ⟨rfl, rfl⟩

/-- C3 (counterexample): running the SSL module's `state=present` twice
with the identical desired value against the same store reports
`changed=True` both times — the second invocation does not report
`changed=false` as the claim requires. -/
theorem claim3_counterexample_ssl_not_idempotent :
    sslReportsChanged (ssl_main_on_store false .present "example.com" (some "full")
        ⟨[⟨"z1", "example.com"⟩], ⟨"ssl", "full"⟩⟩).1 = true
    ∧ sslReportsChanged (ssl_main_on_store false .present "example.com" (some "full")
        (ssl_main_on_store false .present "example.com" (some "full")
          ⟨[⟨"z1", "example.com"⟩], ⟨"ssl", "full"⟩⟩).2.2).1 = true :=
  ⟨rfl, rfl⟩

/-- C5: `state=fetched` never reports `changed=true` in either module;
the single-resource tunnel variant fails the task when no tunnel
matches, while the list-returning variant (modelled from the spec)
returns the filtered list with `changed=false`, an empty list being a
success. -/
theorem claim5_fetched_semantics :
    (∀ (name : String) (pages : List PageResponse),
      reportsChanged (state_fetched name pages) = false)
    ∧ (∀ (name : String) (pages : List PageResponse),
        fetch_tunnel name pages = .notFound →
        state_fetched name pages = .fail ("Tunnel with name " ++ name ++ " not found."))
    ∧ (∀ (cm : Bool) (v : Option String) (zs : List Zone) (sr pr : SSLSetting),
        sslReportsChanged (ssl_main cm .fetched v zs sr pr).1 = false)
    ∧ (∀ (store : List RepoVariable) (n : String),
        variables_fetched store (some n)
          = .exit false (store.filter (fun v => v.name == n)))
    ∧ (∀ (store : List RepoVariable) (n : String),
        (∀ v ∈ store, v.name ≠ n) → variables_fetched store (some n) = .exit false []) := by
  refine ⟨?_, ?_, ?_, ?_, ?_⟩
  · intro name pages
    unfold state_fetched
    cases fetch_tunnel name pages <;> rfl
  · intro name pages h
    unfold state_fetched
    rw [h]
  · intro cm v zs sr pr
    unfold ssl_main fetch_ssl_settings
    cases zs <;> rfl
  · intro store n
    rfl
  · intro store n h
    have hnil : store.filter (fun v => v.name == n) = [] := by
      rw [List.filter_eq_nil_iff]
      intro a ha
      simpa using h a ha
    simp [variables_fetched, hnil]

theorem claim5_witness :
    state_fetched "my-tunnel" [{ result := [], result_info := some { page := some 1, total_pages := some 1 } }]
      = .fail "Tunnel with name my-tunnel not found."
    ∧ variables_fetched [⟨"A", "1"⟩, ⟨"B", "2"⟩] (some "C") = .exit false [] :=
  ⟨claim5_fetched_semantics.2.1 "my-tunnel" _ rfl,
   claim5_fetched_semantics.2.2.2.2 [⟨"A", "1"⟩, ⟨"B", "2"⟩] "C" (by decide)⟩

/-- C9: both `fetch_ssl_settings` and `set_ssl_settings` index
`result["result"][0]` of the zone listing without checking emptiness:
whenever the zone name matches no zone, the invocation raises an
uncaught IndexError (the responses are 200s, so the `fail_json` failure
path is never taken). -/
theorem claim9_empty_zone_list_index_error (cm : Bool) (zone v : String)
    (st : SSLStore) (sr pr : SSLSetting) (hv : v ≠ "")
    (h : st.zones.filter (fun z => z.name == zone) = []) :
    fetch_ssl_settings [] sr = .error .indexError
    ∧ (set_ssl_settings [] pr v).1 = .error .indexError
    ∧ (ssl_main_on_store cm .fetched zone (some v) st).1 = .pyError .indexError
    ∧ (ssl_main_on_store cm .present zone (some v) st).1 = .pyError .indexError := by
  refine ⟨rfl, rfl, ?_, ?_⟩
  · unfold ssl_main_on_store ssl_main fetch_ssl_settings
    rw [h]
  · unfold ssl_main_on_store ssl_main set_ssl_settings
    rw [h]
    simp [pyTruthy, hv]

theorem claim9_witness :
    (ssl_main_on_store false .fetched "missing.com" (some "full")
        ⟨[⟨"z1", "example.com"⟩], ⟨"ssl", "full"⟩⟩).1 = .pyError .indexError
    ∧ (ssl_main_on_store false .present "missing.com" (some "full")
        ⟨[⟨"z1", "example.com"⟩], ⟨"ssl", "full"⟩⟩).1 = .pyError .indexError := by
  have h := claim9_empty_zone_list_index_error false "missing.com" "full"
    ⟨[⟨"z1", "example.com"⟩], ⟨"ssl", "full"⟩⟩ ⟨"s", "s"⟩ ⟨"s", "s"⟩
    (by decide) (by decide)
  exact ⟨h.2.2.1, h.2.2.2⟩

/-- C8: the tunnel secret is write-only.  The outcome of the
`state=present` flow (including its `changed` flag) is identical for any
two invocations differing only in `tunnel_secret`; the secret is sent
verbatim in the POST body on create, and in the PATCH body on update
when it is provided (truthy) — it never enters the equality comparison
deciding `changed`. -/
theorem claim8_tunnel_secret_write_only (cm : Bool) (name cs tid : String)
    (s1 s2 : Option String) (pages : List PageResponse) (cr cur pr : Tunnel) :
    (state_present cm name cs s1 pages cr cur pr).1
      = (state_present cm name cs s2 pages cr cur pr).1
    ∧ (create_tunnel false name cs s1 cr).2 = [.postTunnel name cs s1]
    ∧ (pyTruthy s1 = true → pyTruthy cur.deleted_at = true →
        (update_tunnel false tid cs s1 cur pr).2 = [.patchTunnel tid cs s1]) := by
  refine ⟨?_, rfl, ?_⟩
  · unfold state_present
    cases h : fetch_tunnel name pages with
    | found t =>
      unfold update_tunnel
      by_cases hc : (cur.config_src.getD "local" == cs && !pyTruthy cur.deleted_at) = true <;>
        by_cases hm : cm = true <;> simp [hc, hm]
    | notFound =>
      unfold create_tunnel
      by_cases hm : cm = true <;> simp [hm]
    | tyErr => rfl
    | noResponse => rfl
  · intro h1 h2
    unfold update_tunnel
    simp [h2, patchSecretField, h1]

theorem claim8_witness :
    (state_present false "my-tunnel" "local" (some "secret-A")
        [{ result := [], result_info := some { page := some 1, total_pages := some 1 } }]
        ⟨"tid-9", "my-tunnel", some "local", none⟩ ⟨"c", "c", none, none⟩ ⟨"p", "p", none, none⟩).1
      = (state_present false "my-tunnel" "local" none
        [{ result := [], result_info := some { page := some 1, total_pages := some 1 } }]
        ⟨"tid-9", "my-tunnel", some "local", none⟩ ⟨"c", "c", none, none⟩ ⟨"p", "p", none, none⟩).1
    ∧ (update_tunnel false "tid-9" "local" (some "secret-A")
        ⟨"tid-9", "my-tunnel", some "local", some "2024-01-01"⟩ ⟨"p", "p", none, none⟩).2
      = [.patchTunnel "tid-9" "local" (some "secret-A")] := by
  have h := claim8_tunnel_secret_write_only false "my-tunnel" "local" "tid-9"
    (some "secret-A") none
    [{ result := [], result_info := some { page := some 1, total_pages := some 1 } }]
    ⟨"tid-9", "my-tunnel", some "local", none⟩
    ⟨"tid-9", "my-tunnel", some "local", some "2024-01-01"⟩ ⟨"p", "p", none, none⟩
  exact ⟨h.1, h.2.2 (by decide) (by decide)⟩

/-- C1 (amended): in the tunnel module, when the lookup found a match the
only desired field compared is `config_src` (a missing current
`config_src` defaults to `"local"`); the module exits `changed=False`
with the current payload unmodified and no mutating request exactly when
the desired `config_src` equals the current one and the current payload
carries no deletion timestamp; otherwise it reports `changed=True`,
issuing the PATCH unless check mode is on. -/
theorem claim1_amended_update_comparison (cm : Bool) (tid cs : String)
    (secret : Option String) (cur p : Tunnel) :
    ((update_tunnel cm tid cs secret cur p).1 = .exit false (some cur) none
        ↔ (cur.config_src.getD "local" = cs ∧ pyTruthy cur.deleted_at = false))
    ∧ (reportsChanged (update_tunnel cm tid cs secret cur p).1 = true
        ↔ ¬(cur.config_src.getD "local" = cs ∧ pyTruthy cur.deleted_at = false))
    ∧ (cur.config_src.getD "local" = cs ∧ pyTruthy cur.deleted_at = false →
        (update_tunnel cm tid cs secret cur p).2 = [])
    ∧ (¬(cur.config_src.getD "local" = cs ∧ pyTruthy cur.deleted_at = false) →
        cm = false →
        (update_tunnel cm tid cs secret cur p).2
          = [.patchTunnel tid cs (patchSecretField secret)])
    ∧ (¬(cur.config_src.getD "local" = cs ∧ pyTruthy cur.deleted_at = false) →
        cm = true → (update_tunnel cm tid cs secret cur p).2 = []) := by
  unfold update_tunnel
  by_cases hc : (cur.config_src.getD "local" == cs && !pyTruthy cur.deleted_at) = true
  · have hp : cur.config_src.getD "local" = cs ∧ pyTruthy cur.deleted_at = false := by
      simpa [Bool.and_eq_true, beq_iff_eq, Bool.not_eq_true'] using hc
    simp [hc, hp, reportsChanged]
  · have hp : ¬(cur.config_src.getD "local" = cs ∧ pyTruthy cur.deleted_at = false) := by
      simpa [Bool.and_eq_true, beq_iff_eq, Bool.not_eq_true'] using hc
    by_cases hm : cm = true <;> simp [hc, hp, hm, reportsChanged]

theorem claim1_witness :
    (update_tunnel false "tid-1" "local" none
        ⟨"tid-1", "my-tunnel", none, none⟩ ⟨"p", "p", none, none⟩).2 = []
    ∧ (update_tunnel false "tid-1" "cloudflare" (some "secret-A")
        ⟨"tid-1", "my-tunnel", none, none⟩ ⟨"p", "p", none, none⟩).2
      = [.patchTunnel "tid-1" "cloudflare" (some "secret-A")] :=
  ⟨(claim1_amended_update_comparison false "tid-1" "local" none _ _).2.2.1
      (by decide),
   (claim1_amended_update_comparison false "tid-1" "cloudflare" (some "secret-A") _ _).2.2.2.1
      (by decide) rfl⟩

/-- C3 (amended): in the tunnel module, starting from a store containing
no live tunnel of the requested name (and no id colliding with the
server's fresh id), running `state=present` twice with the identical
desired state reports `changed=True` then `changed=False`, and both
invocations return the same final tunnel payload. -/
theorem claim3_amended_tunnel_idempotent (name cs : String)
    (secret : Option String) (store : List Tunnel)
    (h1 : store.find? (tunnelMatches name) = none)
    (h2 : store.find? (fun u => u.id == freshId store) = none) :
    (present_on_store false name cs secret store).1
      = .exit true (some (mkFresh store name cs)) none
    ∧ (present_on_store false name cs secret
        (present_on_store false name cs secret store).2.2).1
      = .exit false (some (mkFresh store name cs)) none := by
  have hfetch : fetch_tunnel name (storePages store) = .notFound := by
    simp [fetch_tunnel, storePages, pageVal, totalPagesVal, h1]
  have hrun1 : present_on_store false name cs secret store
      = (.exit true (some (mkFresh store name cs)) none,
         [.postTunnel name cs secret], store ++ [mkFresh store name cs]) := by
    simp [present_on_store, hfetch, create_tunnel, applyCalls, applyCall]
  refine ⟨by rw [hrun1], ?_⟩
  rw [hrun1]
  have hmatch : tunnelMatches name (mkFresh store name cs) = true := by
    simp [tunnelMatches, mkFresh, pyTruthy]
  have hfind : (store ++ [mkFresh store name cs]).find? (tunnelMatches name)
      = some (mkFresh store name cs) := by
    rw [List.find?_append, h1]
    simp [hmatch]
  have hfetch2 : fetch_tunnel name (storePages (store ++ [mkFresh store name cs]))
      = .found (mkFresh store name cs) := by
    simp [fetch_tunnel, storePages, hfind]
  have hfindid : (store ++ [mkFresh store name cs]).find?
        (fun u => u.id == (mkFresh store name cs).id)
      = some (mkFresh store name cs) := by
    rw [List.find?_append]
    have : store.find? (fun u => u.id == (mkFresh store name cs).id) = none := h2
    rw [this]
    simp
  unfold present_on_store
  rw [hfetch2]
  simp only [hfindid]
  simp [update_tunnel, mkFresh, pyTruthy]

theorem claim3_witness :
    (present_on_store false "my-tunnel" "cloudflare" (some "secret-A") []).1
      = .exit true (some ⟨"tunnel-0", "my-tunnel", some "cloudflare", none⟩) none
    ∧ (present_on_store false "my-tunnel" "cloudflare" (some "secret-A")
        (present_on_store false "my-tunnel" "cloudflare" (some "secret-A") []).2.2).1
      = .exit false (some ⟨"tunnel-0", "my-tunnel", some "cloudflare", none⟩) none :=
  claim3_amended_tunnel_idempotent "my-tunnel" "cloudflare" (some "secret-A") [] rfl rfl

/-- Generalized pagination invariant: a nonempty suffix of a well-formed
response sequence, whose first page reports page number `k` and whose
last page reports `total = k - 1 + length`, is scanned by `fetch_tunnel`
exactly as a linear search of the concatenated results. -/
theorem fetch_tunnel_wf (name : String) :
    ∀ (l : List PageResponse) (k total : Int), l ≠ [] →
      total = k - 1 + l.length → wfFrom k total l = true →
      fetch_tunnel name l = resultOfFind ((pagesResults l).find? (tunnelMatches name)) := by
  intro l
  induction l with
  | nil => intro k total h _ _; exact absurd rfl h
  | cons r rest ih =>
    intro k total _ htotal hwf
    simp only [wfFrom, Bool.and_eq_true, beq_iff_eq] at hwf
    obtain ⟨⟨hp, ht⟩, hrest⟩ := hwf
    cases hfind : r.result.find? (tunnelMatches name) with
    | some t =>
      unfold fetch_tunnel
      rw [hfind]
      simp [pagesResults, List.find?_append, hfind, resultOfFind]
    | none =>
      cases rest with
      | nil =>
        have hk : total = k := by
          simp at htotal
          omega
        unfold fetch_tunnel
        rw [hfind, hp]
        have hle : totalPagesVal r ≤ k := by rw [ht, hk]
        simp [hle, pagesResults, hfind, resultOfFind]
      | cons r2 rest2 =>
        have hgt : ¬ totalPagesVal r ≤ k := by
          rw [ht, htotal]
          simp only [List.length_cons]
          push_cast
          omega
        unfold fetch_tunnel
        rw [hfind, hp]
        simp only [hgt, if_neg, if_false]
        have hrec := ih (k + 1) total (by simp)
          (by simp at htotal ⊢; omega) hrest
        rw [hrec]
        simp [pagesResults, List.find?_append, hfind]

/-- C4: the paginated lookup scans pages in ascending order from page 1
and returns the first listed tunnel whose name matches and which carries
no (truthy) deletion timestamp; it returns "not found" exactly when no
page holds a match and the pages are exhausted, exhaustion being
`page >= total_pages` with a missing `total_pages` defaulting to 1 (the
default is part of `totalPagesVal`, which `wfFrom` builds on). -/
theorem claim4_paginated_lookup (name : String) (pages : List PageResponse)
    (h1 : pages ≠ []) (h2 : wfFrom 1 pages.length pages = true) :
    fetch_tunnel name pages
      = resultOfFind ((pagesResults pages).find? (tunnelMatches name)) :=
  fetch_tunnel_wf name pages 1 pages.length h1 (by simp) h2

theorem claim4_witness :
    fetch_tunnel "b"
        [{ result := [⟨"i1", "a", none, none⟩, ⟨"i2", "b", none, some "2024-01-01"⟩],
           result_info := some { page := some 1, total_pages := some 2 } },
         { result := [⟨"i3", "b", none, none⟩],
           result_info := some { page := some 2, total_pages := some 2 } }]
      = resultOfFind ((pagesResults
          [{ result := [⟨"i1", "a", none, none⟩, ⟨"i2", "b", none, some "2024-01-01"⟩],
             result_info := some { page := some 1, total_pages := some 2 } },
           { result := [⟨"i3", "b", none, none⟩],
             result_info := some { page := some 2, total_pages := some 2 } }]).find?
            (tunnelMatches "b"))
    ∧ fetch_tunnel "b"
        [{ result := [⟨"i1", "a", none, none⟩, ⟨"i2", "b", none, some "2024-01-01"⟩],
           result_info := some { page := some 1, total_pages := some 2 } },
         { result := [⟨"i3", "b", none, none⟩],
           result_info := some { page := some 2, total_pages := some 2 } }]
      = .found ⟨"i3", "b", none, none⟩ :=
  ⟨claim4_paginated_lookup "b" _ (by simp) (by decide), by decide⟩

end CloudflareCollection
